import Mathlib

/-!
Shallow embedding of src/gestor_librerias/core.py.

The external world (installed-package metadata, the pip subprocess, the
PyPI index, the clock) is modelled by the oracle record Entorno; the JSON
persistence file is the state Archivo; side effects (subprocess calls,
network calls, file writes) are recorded in an explicit trace of Efecto
values. Pure helpers are translated function by function from the source.
-/

/-- Estados posibles de una libreria (enum EstadoLibreria in the source). -/
inductive EstadoLibreria where
  | no_instalada
  | instalada
  | actualizada
  | error
  deriving DecidableEq, Repr

/-- String value of each state, as in the Python enum. -/
def EstadoLibreria.value : EstadoLibreria → String
  | .no_instalada => "no_instalada"
  | .instalada => "instalada"
  | .actualizada => "actualizada"
  | .error => "error"

/-- Modos de operacion (enum ModoOperacion in the source). -/
inductive ModoOperacion where
  | solo_ver
  | instalar
  | instalar_y_actualizar
  deriving DecidableEq, Repr

/-- String value of each mode, as in the Python enum. -/
def ModoOperacion.value : ModoOperacion → String
  | .solo_ver => "solo_ver"
  | .instalar => "instalar"
  | .instalar_y_actualizar => "instalar_y_actualizar"

/-- Configuracion de un modo (dataclass ConfigModo). -/
structure ConfigModo where
  solo_verificar : Bool
  actualizar : Bool
  descripcion : String
  deriving DecidableEq, Repr

/-- Tabla CONFIG_MODOS of the source. -/
def CONFIG_MODOS : ModoOperacion → ConfigModo
  | .solo_ver =>
      ⟨true, false, "Solo verifica si la libreria esta instalada y guarda info en JSON."⟩
  | .instalar =>
      ⟨false, false, "Instala la libreria si no esta instalada, no actualiza."⟩
  | .instalar_y_actualizar =>
      ⟨false, true, "Instala la libreria si no esta, y actualiza si ya existe."⟩

/-- Registro de una libreria (dataclass InfoLibreria). The timestamp is
supplied by the caller from the environment clock (datetime.utcnow). -/
structure InfoLibreria where
  libreria : String
  estado : EstadoLibreria
  version_instalada : Option String := none
  ultima_version : Option String := none
  mensaje : Option String := none
  timestamp : String := ""
  deriving DecidableEq, Repr

/-- InfoLibreria.to_dict: the three mandatory fields, then each optional
field only when it is truthy (present and a non-empty string), in the
source order. A JSON object is modelled as an association list. -/
def InfoLibreria.to_dict (info : InfoLibreria) : List (String × String) :=
  [("libreria", info.libreria), ("estado", info.estado.value), ("timestamp", info.timestamp)]
    ++ (match info.version_instalada with
        | some v => if v = "" then [] else [("version_instalada", v)]
        | none => [])
    ++ (match info.ultima_version with
        | some v => if v = "" then [] else [("ultima_version", v)]
        | none => [])
    ++ (match info.mensaje with
        | some v => if v = "" then [] else [("mensaje", v)]
        | none => [])

/-- Oracle for the external world. metadata models importlib.metadata.version
(none = PackageNotFoundError); pipShow models the stdout of a successful
pip show call (none = CalledProcessError); pypi models the latest-version
field of the index response (none = any exception in the HTTP GET or JSON
parse); instalarRes and actualizarRes give none on subprocess success and
some message when check_call raises (the message is str of the exception);
distribuciones is the list of (name, version) pairs of
importlib.metadata.distributions; ahora is the current UTC timestamp. -/
structure Entorno where
  metadata : String → Option String
  pipShow : String → Option String
  pypi : String → Option String
  instalarRes : String → Option String
  actualizarRes : String → Option String
  distribuciones : List (String × String)
  ahora : String

/-- Python str.lower, as a character map (kernel-executable). -/
def minusculas (s : String) : String := ⟨s.data.map Char.toLower⟩

/-- Helper of recortar: drop leading whitespace characters. -/
def recortarIzq : List Char → List Char
  | [] => []
  | c :: resto => if c.isWhitespace then recortarIzq resto else c :: resto

/-- Python str.strip: remove whitespace at both ends (kernel-executable). -/
def recortar (s : String) : String :=
  ⟨((recortarIzq s.data.reverse).reverse |> recortarIzq)⟩

/-- Python nombre.replace of hyphen by underscore; with a one-character
pattern, replacing every occurrence is a character map. -/
def reemplazarGuiones (s : String) : String :=
  ⟨s.data.map fun c => if c = '-' then '_' else c⟩

/-- Helper of dividirLineas: split a character list on newline characters. -/
def dividirLineasAux (actual : List Char) : List Char → List (List Char)
  | [] => [actual.reverse]
  | c :: resto =>
      if c = '\n' then actual.reverse :: dividirLineasAux [] resto
      else dividirLineasAux (c :: actual) resto

/-- Python str.splitlines on newline characters (kernel-executable). -/
def dividirLineas (s : String) : List String :=
  (dividirLineasAux [] s.data).map fun l => ⟨l⟩

/-- Python str.startswith (kernel-executable). -/
def empiezaCon (pre s : String) : Bool := pre.data.isPrefixOf s.data

/-- Drop the first n characters of a string (kernel-executable). -/
def quitar (n : Nat) (s : String) : String := ⟨s.data.drop n⟩

/-- Parsing of pip show output inside obtener_version_instalada: the first
line starting with "Version:" yields the text after the first colon,
stripped; since the prefix has no earlier colon, splitting on the first
colon is dropping the first eight characters. -/
def parsearSalidaVersion (salida : String) : Option String :=
  (dividirLineas salida).findSome? fun linea =>
    if empiezaCon "Version:" linea then some (recortar (quitar 8 linea)) else none

/-- ConsultorVersiones.obtener_version_instalada: "desconocida" when the
subprocess fails or no Version line is found. -/
def obtener_version_instalada (env : Entorno) (nombre_libreria : String) : String :=
  match env.pipShow nombre_libreria with
  | none => "desconocida"
  | some salida => (parsearSalidaVersion salida).getD "desconocida"

/-- ConsultorVersiones.obtener_ultima_version: any exception is caught and
mapped to the sentinel "desconocida". -/
def obtener_ultima_version (env : Entorno) (nombre_libreria : String) : String :=
  match env.pypi nombre_libreria with
  | none => "desconocida"
  | some v => v

/-- State of the persistence file: absent, present but not valid JSON, or a
JSON object mapping package names to records. -/
inductive Archivo where
  | ausente
  | corrupto
  | datos (contenido : List (String × List (String × String)))
  deriving DecidableEq, Repr

/-- GestorJSON.leer: empty map when the file is absent or corrupt. -/
def leer : Archivo → List (String × List (String × String))
  | .ausente => []
  | .corrupto => []
  | .datos contenido => contenido

/-- Keys of an association list (a JSON object). -/
def claves {α : Type} (m : List (String × α)) : List String := m.map Prod.fst

/-- Lookup in an association list, first match wins (Python dict access). -/
def buscar {α : Type} (m : List (String × α)) (k : String) : Option α :=
  match m with
  | [] => none
  | p :: resto => if p.1 = k then some p.2 else buscar resto k

/-- Python dict assignment d[k] = v on an association list: overwrite the
entry in place when the key exists, otherwise append it at the end. -/
def dictSet {α : Type} (m : List (String × α)) (k : String) (v : α) : List (String × α) :=
  if k ∈ claves m then
    m.map fun p => if p.1 = k then (k, v) else p
  else
    m ++ [(k, v)]

/-- GestorJSON.actualizar_libreria: read the file, overwrite this package
key, write the whole map back. -/
def actualizar_libreria (a : Archivo) (info : InfoLibreria) : Archivo :=
  Archivo.datos (dictSet (leer a) info.libreria info.to_dict)

/-- InstaladorPip.esta_instalada: metadata for the name as given, falling
back to the name with hyphens replaced by underscores. -/
def esta_instalada (env : Entorno) (nombre_libreria : String) : Bool :=
  match env.metadata nombre_libreria with
  | some _ => true
  | none =>
    match env.metadata (reemplazarGuiones nombre_libreria) with
    | some _ => true
    | none => false

/-- Observable side effects of one run: installer subprocess calls, the
pip show subprocess, the network call to the index, and file writes. -/
inductive Efecto where
  | pipShow (nombre : String)
  | consultaPypi (nombre : String)
  | pipInstall (nombre : String)
  | pipUpgrade (nombre : String)
  | escrituraJSON (contenido : List (String × List (String × String)))
  deriving DecidableEq, Repr

/-- True for the two effects that modify the installed environment. -/
def esEfectoInstalador : Efecto → Bool
  | .pipInstall _ => true
  | .pipUpgrade _ => true
  | _ => false

/-- Record built by _verificar_solo for an absent package. -/
def infoNoInstalada (env : Entorno) (nombre : String) : InfoLibreria :=
  { libreria := nombre, estado := .no_instalada,
    mensaje := some ("La libreria " ++ nombre ++ " no esta instalada."),
    timestamp := env.ahora }

/-- Record built when the package is present (or was just installed or
upgraded): both version fields are filled from the two consultor calls. -/
def infoInstalada (env : Entorno) (nombre : String) (estado : EstadoLibreria) : InfoLibreria :=
  { libreria := nombre, estado := estado,
    version_instalada := some (obtener_version_instalada env nombre),
    ultima_version := some (obtener_ultima_version env nombre),
    timestamp := env.ahora }

/-- Record built by _manejar_error. -/
def infoError (env : Entorno) (nombre : String) (msj : String) : InfoLibreria :=
  { libreria := nombre, estado := .error, mensaje := some msj,
    timestamp := env.ahora }

/-- VerificadorLibrerias._verificar_solo. -/
def _verificar_solo (env : Entorno) (a : Archivo) (nombre : String)
    (instalada : Bool) (guardar_json : Bool) :
    (Bool × InfoLibreria) × Archivo × List Efecto :=
  if !instalada then
    let info := infoNoInstalada env nombre
    if guardar_json then
      ((true, info), actualizar_libreria a info,
        [Efecto.escrituraJSON (leer (actualizar_libreria a info))])
    else
      ((true, info), a, [])
  else
    let info := infoInstalada env nombre .instalada
    if guardar_json then
      ((true, info), actualizar_libreria a info,
        [Efecto.pipShow nombre, Efecto.consultaPypi nombre,
         Efecto.escrituraJSON (leer (actualizar_libreria a info))])
    else
      ((true, info), a, [Efecto.pipShow nombre, Efecto.consultaPypi nombre])

/-- VerificadorLibrerias._verificar_e_instalar. A raised CalledProcessError
is returned as Except.error carrying the message and the effects emitted
before the exception. -/
def _verificar_e_instalar (env : Entorno) (a : Archivo) (nombre : String)
    (instalada : Bool) (actualizar : Bool) (guardar_json : Bool) :
    Except (String × List Efecto) ((Bool × InfoLibreria) × Archivo × List Efecto) :=
  let resultadoSub : Option String × EstadoLibreria × List Efecto :=
    if instalada then
      if actualizar then
        (env.actualizarRes nombre, EstadoLibreria.actualizada, [Efecto.pipUpgrade nombre])
      else
        (none, EstadoLibreria.instalada, [])
    else
      (env.instalarRes nombre, EstadoLibreria.instalada, [Efecto.pipInstall nombre])
  match resultadoSub with
  | (some msj, _, efectosSub) => Except.error (msj, efectosSub)
  | (none, estado_final, efectosSub) =>
    let info := infoInstalada env nombre estado_final
    let efectos := efectosSub ++ [Efecto.pipShow nombre, Efecto.consultaPypi nombre]
    if guardar_json then
      Except.ok ((true, info), actualizar_libreria a info,
        efectos ++ [Efecto.escrituraJSON (leer (actualizar_libreria a info))])
    else
      Except.ok ((true, info), a, efectos)

/-- VerificadorLibrerias._manejar_error: build the error record with the
textual message of the exception, persist it when requested, and return
the failure flag. -/
def _manejar_error (env : Entorno) (a : Archivo) (nombre : String)
    (msj : String) (guardar_json : Bool) :
    (Bool × InfoLibreria) × Archivo × List Efecto :=
  let info := infoError env nombre msj
  if guardar_json then
    ((false, info), actualizar_libreria a info,
      [Efecto.escrituraJSON (leer (actualizar_libreria a info))])
  else
    ((false, info), a, [])

/-- VerificadorLibrerias.verificar: dispatch on the mode; any exception in
the branch is caught once by _manejar_error. -/
def verificar (env : Entorno) (a : Archivo) (nombre_libreria : String)
    (modo : ConfigModo) (guardar_json : Bool) :
    (Bool × InfoLibreria) × Archivo × List Efecto :=
  let instalada := esta_instalada env nombre_libreria
  if modo.solo_verificar then
    _verificar_solo env a nombre_libreria instalada guardar_json
  else
    match _verificar_e_instalar env a nombre_libreria instalada modo.actualizar guardar_json with
    | Except.ok r => r
    | Except.error (msj, efectosSub) =>
      let r := _manejar_error env a nombre_libreria msj guardar_json
      (r.1, r.2.1, efectosSub ++ r.2.2)

/-- Validador.validar_nombre_libreria. -/
def validar_nombre_libreria (nombre : String) : Except String String :=
  if recortar nombre = "" then
    Except.error "Se debe proporcionar un nombre de libreria valido."
  else
    Except.ok (recortar nombre)

/-- Validador.parsear_bool (string branch; main always passes a string). -/
def parsear_bool (valor : String) : Except String Bool :=
  let valor_normalizado := minusculas (recortar valor)
  if valor_normalizado ≠ "si" ∧ valor_normalizado ≠ "no" then
    Except.error ("Valor invalido: " ++ valor ++ ". Debe ser exactamente si o no.")
  else
    Except.ok (valor_normalizado = "si")

/-- Validador.obtener_modo: ModoOperacion(opcion) then the CONFIG_MODOS
table; unknown strings raise ValueError. -/
def obtener_modo (opcion : String) : Except String ConfigModo :=
  if opcion = ModoOperacion.solo_ver.value then
    Except.ok (CONFIG_MODOS ModoOperacion.solo_ver)
  else if opcion = ModoOperacion.instalar.value then
    Except.ok (CONFIG_MODOS ModoOperacion.instalar)
  else if opcion = ModoOperacion.instalar_y_actualizar.value then
    Except.ok (CONFIG_MODOS ModoOperacion.instalar_y_actualizar)
  else
    Except.error ("Opcion invalida: " ++ opcion
      ++ ". Debe ser una de: solo_ver, instalar, instalar_y_actualizar.")

/-- True exactly on a raising outcome of the entry point. -/
def esErrorRes : Except String Unit → Bool
  | .error _ => true
  | .ok _ => false

namespace GestorLibrerias

/-- Entry point main: validate the three inputs in source order before any
side effect, run verificar, and re-raise on failure (both validation
errors and the not-exito RuntimeError are wrapped by the outer handler). -/
def main (env : Entorno) (a : Archivo)
    (libreria_a_verificar : String) (opcion : String) (guardar_json : String) :
    Except String Unit × Archivo × List Efecto :=
  match validar_nombre_libreria libreria_a_verificar with
  | Except.error e => (Except.error ("Fallo en la ejecucion: " ++ e), a, [])
  | Except.ok nombre_libreria =>
    match parsear_bool guardar_json with
    | Except.error e => (Except.error ("Fallo en la ejecucion: " ++ e), a, [])
    | Except.ok guardar_json_bool =>
      match obtener_modo opcion with
      | Except.error e => (Except.error ("Fallo en la ejecucion: " ++ e), a, [])
      | Except.ok modo =>
        let r := verificar env a nombre_libreria modo guardar_json_bool
        if r.1.1 then
          (Except.ok (), r.2.1, r.2.2)
        else
          (Except.error ("Fallo en la ejecucion: No se pudo completar la operacion sobre "
              ++ nombre_libreria ++ ". Detalle: " ++ (r.1.2.mensaje.getD "None")),
            r.2.1, r.2.2)

end GestorLibrerias

/-- ListarLibrerias.obtener_todas: all installed distributions sorted by
lower-cased name. -/
def obtener_todas (env : Entorno) : List (String × String) :=
  env.distribuciones.mergeSort fun x y => decide (minusculas x.1 ≤ minusculas y.1)

/-- Shape of the inventory export object. -/
structure InventarioJSON where
  fecha_escaneo : String
  total_librerias : Nat
  librerias : List (String × String)
  deriving DecidableEq, Repr

/-- ListarLibrerias.exportar_a_json: build the object with a zero count,
then set the count to the length of the stored list. -/
def exportar_a_json (env : Entorno) : InventarioJSON :=
  let datos : InventarioJSON :=
    { fecha_escaneo := env.ahora, total_librerias := 0,
      librerias := obtener_todas env }
  { datos with total_librerias := datos.librerias.length }

/-- Value of an optional field in to_dict: dropped when absent or empty. -/
def filtraVacia : Option String → Option String
  | none => none
  | some v => if v = "" then none else some v

/-- Concrete environment with no package installed and all subprocesses
succeeding. -/
def entornoVacio : Entorno :=
  { metadata := fun _ => none,
    pipShow := fun _ => none,
    pypi := fun _ => none,
    instalarRes := fun _ => none,
    actualizarRes := fun _ => none,
    distribuciones := [],
    ahora := "2024-01-01T00:00:00" }

/-- Concrete environment where requests is installed at 2.31.0, the index
reports 2.32.3, and all subprocesses succeed. -/
def entornoInstalado : Entorno :=
  { metadata := fun n => if n = "requests" then some "2.31.0" else none,
    pipShow := fun n =>
      if n = "requests" then some "Name: requests\nVersion: 2.31.0" else none,
    pypi := fun n => if n = "requests" then some "2.32.3" else none,
    instalarRes := fun _ => none,
    actualizarRes := fun _ => none,
    distribuciones := [("requests", "2.31.0")],
    ahora := "2024-01-01T00:00:00" }

/-- Concrete environment with nothing installed where pip install exits
non-zero for every package. -/
def entornoFallaInstalar : Entorno :=
  { entornoVacio with
    instalarRes := fun _ =>
      some "Command pip install returned non-zero exit status 1." }

/-- Concrete environment where requests is installed but pip install
with the upgrade flag exits non-zero for every package. -/
def entornoFallaActualizar : Entorno :=
  { entornoInstalado with
    actualizarRes := fun _ =>
      some "Command pip install upgrade returned non-zero exit status 1." }

/-- Concrete environment where the index query fails for every package
while requests is installed locally. -/
def entornoSinRed : Entorno :=
  { entornoInstalado with pypi := fun _ => none }

/-- Concrete environment whose only installed distribution is yt_dlp. -/
def entornoYtDlp : Entorno :=
  { metadata := fun n => if n = "yt_dlp" then some "2024.1.1" else none,
    pipShow := fun _ => none,
    pypi := fun _ => none,
    instalarRes := fun _ => none,
    actualizarRes := fun _ => none,
    distribuciones := [("yt_dlp", "2024.1.1")],
    ahora := "2024-01-01T00:00:00" }

/-- Concrete record for the persistence witness. -/
def registroEj1 : InfoLibreria :=
  { libreria := "requests", estado := .instalada,
    version_instalada := some "2.31.0", ultima_version := some "2.32.3",
    timestamp := "t1" }

/-- Second concrete record under the same key for the persistence witness. -/
def registroEj2 : InfoLibreria :=
  { libreria := "requests", estado := .no_instalada,
    mensaje := some "ya no esta instalada", timestamp := "t2" }

/-- Concrete file content for the persistence witness. -/
def archivoEj : Archivo :=
  Archivo.datos [("numpy", [("libreria", "numpy"), ("estado", "instalada")])]

/-! Helper lemmas about the association-list model of JSON objects. -/

/-- Keys of a cons cell. -/
theorem claves_cons {α : Type} (p : String × α) (m : List (String × α)) :
    claves (p :: m) = p.1 :: claves m := rfl

/-- Keys distribute over append. -/
theorem claves_append {α : Type} (m l : List (String × α)) :
    claves (m ++ l) = claves m ++ claves l := by
  simp [claves]

/-- Overwriting in place does not change the key list. -/
theorem claves_reemplazo {α : Type} (m : List (String × α)) (k : String) (v : α) :
    claves (m.map fun p => if p.1 = k then (k, v) else p) = claves m := by
  induction m with
  | nil => rfl
  | cons p resto ih =>
    rw [List.map_cons, claves_cons, claves_cons, ih]
    by_cases hp : p.1 = k
    · rw [if_pos hp, hp]
    · rw [if_neg hp]

/-- Key list of dictSet: unchanged when the key exists, appended otherwise. -/
theorem claves_dictSet {α : Type} (m : List (String × α)) (k : String) (v : α) :
    claves (dictSet m k v) =
      if k ∈ claves m then claves m else claves m ++ [k] := by
  by_cases hc : k ∈ claves m
  · rw [dictSet, if_pos hc, if_pos hc, claves_reemplazo]
  · rw [dictSet, if_neg hc, if_neg hc, claves_append, claves_cons]
    rfl

/-- Lookup passes over a block that does not hold the key. -/
theorem buscar_agrega {α : Type} (m l : List (String × α)) (k : String)
    (h : k ∉ claves m) :
    buscar (m ++ l) k = buscar l k := by
  induction m with
  | nil => rfl
  | cons p resto ih =>
    rw [claves_cons, List.mem_cons] at h
    push_neg at h
    have hp : p.1 ≠ k := fun hk => h.1 hk.symm
    rw [List.cons_append, buscar, if_neg hp]
    exact ih h.2

/-- Lookup of the overwritten key when the key is present. -/
theorem buscar_reemplazo {α : Type} (m : List (String × α)) (k : String) (v : α)
    (h : k ∈ claves m) :
    buscar (m.map fun p => if p.1 = k then (k, v) else p) k = some v := by
  induction m with
  | nil => simp [claves] at h
  | cons p resto ih =>
    rw [List.map_cons]
    by_cases hp : p.1 = k
    · rw [if_pos hp, buscar, if_pos rfl]
    · rw [if_neg hp, buscar, if_neg hp]
      rw [claves_cons, List.mem_cons] at h
      rcases h with h | h
      · exact absurd h.symm hp
      · exact ih h

/-- Lookup of the key just written by dictSet. -/
theorem buscar_dictSet_self {α : Type} (m : List (String × α)) (k : String) (v : α) :
    buscar (dictSet m k v) k = some v := by
  by_cases hc : k ∈ claves m
  · rw [dictSet, if_pos hc]
    exact buscar_reemplazo m k v hc
  · rw [dictSet, if_neg hc, buscar_agrega m [(k, v)] k hc, buscar, if_pos rfl]

/-- In-place overwrite of key k leaves lookups of other keys unchanged. -/
theorem buscar_reemplazo_ne {α : Type} (m : List (String × α)) (k k2 : String) (v : α)
    (h : k2 ≠ k) :
    buscar (m.map fun p => if p.1 = k then (k, v) else p) k2 = buscar m k2 := by
  induction m with
  | nil => rfl
  | cons p resto ih =>
    rw [List.map_cons]
    by_cases hp : p.1 = k
    · have hk2 : k ≠ k2 := fun hk => h hk.symm
      rw [if_pos hp, buscar, if_neg hk2, buscar, ih, if_neg]
      rw [hp]
      exact fun hk => hk2 hk
    · rw [if_neg hp, buscar, buscar, ih]

/-- Appending an entry for key k leaves lookups of other keys unchanged. -/
theorem buscar_agrega_ne {α : Type} (m : List (String × α)) (k k2 : String) (v : α)
    (h : k2 ≠ k) :
    buscar (m ++ [(k, v)]) k2 = buscar m k2 := by
  induction m with
  | nil =>
    have hk2 : k ≠ k2 := fun hk => h hk.symm
    simp [buscar, hk2]
  | cons p resto ih =>
    rw [List.cons_append, buscar, buscar, ih]

/-- dictSet leaves lookups of every other key unchanged. -/
theorem buscar_dictSet_ne {α : Type} (m : List (String × α)) (k k2 : String) (v : α)
    (h : k2 ≠ k) :
    buscar (dictSet m k v) k2 = buscar m k2 := by
  by_cases hc : k ∈ claves m
  · rw [dictSet, if_pos hc]
    exact buscar_reemplazo_ne m k k2 v h
  · rw [dictSet, if_neg hc]
    exact buscar_agrega_ne m k k2 v h

/-- After dictSet the key occurs exactly once in the key list, and key
distinctness is preserved, provided the map had distinct keys. -/
theorem count_claves_dictSet {α : Type} (m : List (String × α)) (k : String) (v : α)
    (hnd : (claves m).Nodup) :
    List.count k (claves (dictSet m k v)) = 1 ∧ (claves (dictSet m k v)).Nodup := by
  rw [claves_dictSet]
  by_cases hc : k ∈ claves m
  · rw [if_pos hc]
    exact ⟨List.count_eq_one_of_mem hnd hc, hnd⟩
  · rw [if_neg hc]
    refine ⟨?_, ?_⟩
    · rw [List.count_append, List.count_eq_zero_of_not_mem hc]
      simp
    · simp [List.nodup_append, hnd, hc]

/-- Lookup of the three optional fields of to_dict: present exactly when
the record field is a non-empty string, holding that string. -/
theorem buscar_to_dict (info : InfoLibreria) :
    buscar info.to_dict "version_instalada" = filtraVacia info.version_instalada ∧
    buscar info.to_dict "ultima_version" = filtraVacia info.ultima_version ∧
    buscar info.to_dict "mensaje" = filtraVacia info.mensaje := by
  rcases info with ⟨lib, est, vi, uv, msj, ts⟩
  rcases vi with _ | v <;> rcases uv with _ | u <;> rcases msj with _ | w <;>
    simp only [InfoLibreria.to_dict, filtraVacia] <;>
    refine ⟨?_, ?_, ?_⟩ <;>
    (repeat' split) <;>
    simp_all [buscar]

/-! Reduction lemmas: the value of verificar in each scenario. -/

/-- View-only mode on an absent package. -/
theorem verificar_solo_ver_ausente (env : Entorno) (a : Archivo) (nombre : String)
    (g : Bool) (modo : ConfigModo)
    (hsv : modo.solo_verificar = true)
    (h : esta_instalada env nombre = false) :
    verificar env a nombre modo g =
      ((true, infoNoInstalada env nombre),
       (if g then actualizar_libreria a (infoNoInstalada env nombre) else a),
       (if g then
          [Efecto.escrituraJSON (leer (actualizar_libreria a (infoNoInstalada env nombre)))]
        else [])) := by
  rcases modo with ⟨sv, act, d⟩
  cases sv
  · cases hsv
  · cases g <;> simp [verificar, _verificar_solo, h]

/-- View-only mode on a present package. -/
theorem verificar_solo_ver_presente (env : Entorno) (a : Archivo) (nombre : String)
    (g : Bool) (modo : ConfigModo)
    (hsv : modo.solo_verificar = true)
    (h : esta_instalada env nombre = true) :
    verificar env a nombre modo g =
      ((true, infoInstalada env nombre .instalada),
       (if g then actualizar_libreria a (infoInstalada env nombre .instalada) else a),
       Efecto.pipShow nombre :: Efecto.consultaPypi nombre ::
         (if g then
            [Efecto.escrituraJSON
              (leer (actualizar_libreria a (infoInstalada env nombre .instalada)))]
          else [])) := by
  rcases modo with ⟨sv, act, d⟩
  cases sv
  · cases hsv
  · cases g <;> simp [verificar, _verificar_solo, h]

/-- Any installing mode on an absent package whose install succeeds. -/
theorem verificar_instalando_ausente (env : Entorno) (a : Archivo) (nombre : String)
    (g : Bool) (modo : ConfigModo)
    (hsv : modo.solo_verificar = false)
    (h : esta_instalada env nombre = false)
    (hok : env.instalarRes nombre = none) :
    verificar env a nombre modo g =
      ((true, infoInstalada env nombre .instalada),
       (if g then actualizar_libreria a (infoInstalada env nombre .instalada) else a),
       Efecto.pipInstall nombre :: Efecto.pipShow nombre :: Efecto.consultaPypi nombre ::
         (if g then
            [Efecto.escrituraJSON
              (leer (actualizar_libreria a (infoInstalada env nombre .instalada)))]
          else [])) := by
  rcases modo with ⟨sv, act, d⟩
  cases sv
  · cases g <;> simp [verificar, _verificar_e_instalar, h, hok]
  · cases hsv

/-- Any installing mode on an absent package whose install raises. -/
theorem verificar_instalando_ausente_falla (env : Entorno) (a : Archivo) (nombre : String)
    (g : Bool) (modo : ConfigModo) (msj : String)
    (hsv : modo.solo_verificar = false)
    (h : esta_instalada env nombre = false)
    (hfalla : env.instalarRes nombre = some msj) :
    verificar env a nombre modo g =
      ((false, infoError env nombre msj),
       (if g then actualizar_libreria a (infoError env nombre msj) else a),
       Efecto.pipInstall nombre ::
         (if g then
            [Efecto.escrituraJSON (leer (actualizar_libreria a (infoError env nombre msj)))]
          else [])) := by
  rcases modo with ⟨sv, act, d⟩
  cases sv
  · cases g <;> simp [verificar, _verificar_e_instalar, _manejar_error, h, hfalla]
  · cases hsv

/-- Install mode (no upgrade) on a present package: no installer call. -/
theorem verificar_instalar_presente (env : Entorno) (a : Archivo) (nombre : String)
    (g : Bool) (modo : ConfigModo)
    (hsv : modo.solo_verificar = false)
    (hact : modo.actualizar = false)
    (h : esta_instalada env nombre = true) :
    verificar env a nombre modo g =
      ((true, infoInstalada env nombre .instalada),
       (if g then actualizar_libreria a (infoInstalada env nombre .instalada) else a),
       Efecto.pipShow nombre :: Efecto.consultaPypi nombre ::
         (if g then
            [Efecto.escrituraJSON
              (leer (actualizar_libreria a (infoInstalada env nombre .instalada)))]
          else [])) := by
  rcases modo with ⟨sv, act, d⟩
  cases sv
  · cases act
    · cases g <;> simp [verificar, _verificar_e_instalar, h]
    · cases hact
  · cases hsv

/-- Upgrade mode on a present package whose upgrade succeeds. -/
theorem verificar_actualizar_presente (env : Entorno) (a : Archivo) (nombre : String)
    (g : Bool) (modo : ConfigModo)
    (hsv : modo.solo_verificar = false)
    (hact : modo.actualizar = true)
    (h : esta_instalada env nombre = true)
    (hok : env.actualizarRes nombre = none) :
    verificar env a nombre modo g =
      ((true, infoInstalada env nombre .actualizada),
       (if g then actualizar_libreria a (infoInstalada env nombre .actualizada) else a),
       Efecto.pipUpgrade nombre :: Efecto.pipShow nombre :: Efecto.consultaPypi nombre ::
         (if g then
            [Efecto.escrituraJSON
              (leer (actualizar_libreria a (infoInstalada env nombre .actualizada)))]
          else [])) := by
  rcases modo with ⟨sv, act, d⟩
  cases sv
  · cases act
    · cases hact
    · cases g <;> simp [verificar, _verificar_e_instalar, h, hok]
  · cases hsv

/-- Upgrade mode on a present package whose upgrade raises. -/
theorem verificar_actualizar_presente_falla (env : Entorno) (a : Archivo) (nombre : String)
    (g : Bool) (modo : ConfigModo) (msj : String)
    (hsv : modo.solo_verificar = false)
    (hact : modo.actualizar = true)
    (h : esta_instalada env nombre = true)
    (hfalla : env.actualizarRes nombre = some msj) :
    verificar env a nombre modo g =
      ((false, infoError env nombre msj),
       (if g then actualizar_libreria a (infoError env nombre msj) else a),
       Efecto.pipUpgrade nombre ::
         (if g then
            [Efecto.escrituraJSON (leer (actualizar_libreria a (infoError env nombre msj)))]
          else [])) := by
  rcases modo with ⟨sv, act, d⟩
  cases sv
  · cases act
    · cases hact
    · cases g <;> simp [verificar, _verificar_e_instalar, _manejar_error, h, hfalla]
  · cases hsv

/-! Theorems for the claims. -/

/-- C1: in view-only mode, an absent package yields a record with estado
no_instalada and neither version field in its dict; a present package
yields estado instalada with both version fields present, holding the
consultor results (real version or the sentinel), provided the
environment reports non-empty version strings; when persistence is on,
the persisted record under the package key is exactly the returned dict. -/
theorem solo_ver_registro (env : Entorno) (a : Archivo) (nombre : String) (g : Bool) :
    (esta_instalada env nombre = false →
      (verificar env a nombre (CONFIG_MODOS ModoOperacion.solo_ver) g).1.2.estado
          = EstadoLibreria.no_instalada ∧
      buscar (verificar env a nombre (CONFIG_MODOS ModoOperacion.solo_ver) g).1.2.to_dict
          "version_instalada" = none ∧
      buscar (verificar env a nombre (CONFIG_MODOS ModoOperacion.solo_ver) g).1.2.to_dict
          "ultima_version" = none) ∧
    (esta_instalada env nombre = true →
      obtener_version_instalada env nombre ≠ "" →
      obtener_ultima_version env nombre ≠ "" →
      (verificar env a nombre (CONFIG_MODOS ModoOperacion.solo_ver) g).1.2.estado
          = EstadoLibreria.instalada ∧
      buscar (verificar env a nombre (CONFIG_MODOS ModoOperacion.solo_ver) g).1.2.to_dict
          "version_instalada" = some (obtener_version_instalada env nombre) ∧
      buscar (verificar env a nombre (CONFIG_MODOS ModoOperacion.solo_ver) g).1.2.to_dict
          "ultima_version" = some (obtener_ultima_version env nombre)) ∧
    (g = true →
      buscar (leer (verificar env a nombre (CONFIG_MODOS ModoOperacion.solo_ver) g).2.1)
          nombre
        = some ((verificar env a nombre (CONFIG_MODOS ModoOperacion.solo_ver) g).1.2.to_dict)) := by
  refine ⟨fun h => ?_, fun h hv hu => ?_, fun hg => ?_⟩
  · rw [verificar_solo_ver_ausente env a nombre g _ rfl h]
    refine ⟨rfl, ?_, ?_⟩
    · exact (buscar_to_dict (infoNoInstalada env nombre)).1
    · exact (buscar_to_dict (infoNoInstalada env nombre)).2.1
  · rw [verificar_solo_ver_presente env a nombre g _ rfl h]
    refine ⟨rfl, ?_, ?_⟩
    · rw [(buscar_to_dict (infoInstalada env nombre .instalada)).1]
      simp [infoInstalada, filtraVacia, hv]
    · rw [(buscar_to_dict (infoInstalada env nombre .instalada)).2.1]
      simp [infoInstalada, filtraVacia, hu]
  · subst hg
    cases h : esta_instalada env nombre
    · rw [verificar_solo_ver_ausente env a nombre true _ rfl h]
      simpa [actualizar_libreria, leer, infoNoInstalada] using
        buscar_dictSet_self (leer a) nombre (infoNoInstalada env nombre).to_dict
    · rw [verificar_solo_ver_presente env a nombre true _ rfl h]
      simpa [actualizar_libreria, leer, infoInstalada] using
        buscar_dictSet_self (leer a) nombre (infoInstalada env nombre .instalada).to_dict

/-- Witness for solo_ver_registro at two concrete environments. -/
theorem solo_ver_registro_witness :
    ((verificar entornoVacio Archivo.ausente "requests"
        (CONFIG_MODOS ModoOperacion.solo_ver) true).1.2.estado
        = EstadoLibreria.no_instalada ∧
      buscar (verificar entornoVacio Archivo.ausente "requests"
        (CONFIG_MODOS ModoOperacion.solo_ver) true).1.2.to_dict
        "version_instalada" = none ∧
      buscar (verificar entornoVacio Archivo.ausente "requests"
        (CONFIG_MODOS ModoOperacion.solo_ver) true).1.2.to_dict
        "ultima_version" = none) ∧
    ((verificar entornoInstalado Archivo.ausente "requests"
        (CONFIG_MODOS ModoOperacion.solo_ver) true).1.2.estado
        = EstadoLibreria.instalada ∧
      buscar (verificar entornoInstalado Archivo.ausente "requests"
        (CONFIG_MODOS ModoOperacion.solo_ver) true).1.2.to_dict
        "version_instalada" = some "2.31.0" ∧
      buscar (verificar entornoInstalado Archivo.ausente "requests"
        (CONFIG_MODOS ModoOperacion.solo_ver) true).1.2.to_dict
        "ultima_version" = some "2.32.3") := by
  constructor
  · exact (solo_ver_registro entornoVacio Archivo.ausente "requests" true).1 (by decide)
  · have h := (solo_ver_registro entornoInstalado Archivo.ausente "requests" true).2.1
      (by decide) (by decide) (by decide)
    exact ⟨h.1, h.2.1.trans (by decide), h.2.2.trans (by decide)⟩

/-- C4: persisting is read-modify-write: the new file is exactly dictSet of
the loaded map; the package key now maps to the new record; every other
key is unchanged; and persisting twice under one name leaves exactly one
entry for that name, given the loaded file had distinct keys. -/
theorem persistencia_lee_modifica_escribe (a : Archivo) (info info2 : InfoLibreria)
    (hnd : (claves (leer a)).Nodup) (hmismo : info2.libreria = info.libreria) :
    actualizar_libreria a info
        = Archivo.datos (dictSet (leer a) info.libreria info.to_dict) ∧
    buscar (leer (actualizar_libreria a info)) info.libreria = some info.to_dict ∧
    (∀ k, k ≠ info.libreria →
        buscar (leer (actualizar_libreria a info)) k = buscar (leer a) k) ∧
    List.count info.libreria
        (claves (leer (actualizar_libreria (actualizar_libreria a info) info2))) = 1 := by
  refine ⟨rfl, ?_, ?_, ?_⟩
  · exact buscar_dictSet_self (leer a) info.libreria info.to_dict
  · intro k hk
    exact buscar_dictSet_ne (leer a) info.libreria k info.to_dict hk
  · have h1 := count_claves_dictSet (leer a) info.libreria info.to_dict hnd
    have h2 := count_claves_dictSet (dictSet (leer a) info.libreria info.to_dict)
      info2.libreria info2.to_dict h1.2
    rw [hmismo] at h2
    have hres : leer (actualizar_libreria (actualizar_libreria a info) info2)
        = dictSet (dictSet (leer a) info.libreria info.to_dict)
            info.libreria info2.to_dict := by
      simp [actualizar_libreria, leer, hmismo]
    rw [hres]
    exact h2.1

/-- Witness for persistencia_lee_modifica_escribe at concrete records. -/
theorem persistencia_lee_modifica_escribe_witness :
    buscar (leer (actualizar_libreria archivoEj registroEj1)) "requests"
        = some registroEj1.to_dict ∧
    buscar (leer (actualizar_libreria archivoEj registroEj1)) "numpy"
        = buscar (leer archivoEj) "numpy" ∧
    List.count "requests"
        (claves (leer (actualizar_libreria
          (actualizar_libreria archivoEj registroEj1) registroEj2))) = 1 := by
  have h := persistencia_lee_modifica_escribe archivoEj registroEj1 registroEj2
    (by decide) (by decide)
  exact ⟨h.2.1, h.2.2.1 "numpy" (by decide), h.2.2.2⟩

/-- C9: for every environment, file, name, mode and persist flag, the
success flag of verificar is false exactly when the returned record has
estado error. -/
theorem exito_sii_sin_error (env : Entorno) (a : Archivo) (nombre : String)
    (modo : ConfigModo) (g : Bool) :
    (verificar env a nombre modo g).1.1 = false ↔
      (verificar env a nombre modo g).1.2.estado = EstadoLibreria.error := by
  rcases hmodo : modo with ⟨sv, act, d⟩
  cases sv
  · cases act
    · cases h : esta_instalada env nombre
      · cases hr : env.instalarRes nombre
        · rw [verificar_instalando_ausente env a nombre g _ rfl h hr]
          simp [infoInstalada]
        · rw [verificar_instalando_ausente_falla env a nombre g _ _ rfl h hr]
          simp [infoError]
      · rw [verificar_instalar_presente env a nombre g _ rfl rfl h]
        simp [infoInstalada]
    · cases h : esta_instalada env nombre
      · cases hr : env.instalarRes nombre
        · rw [verificar_instalando_ausente env a nombre g _ rfl h hr]
          simp [infoInstalada]
        · rw [verificar_instalando_ausente_falla env a nombre g _ _ rfl h hr]
          simp [infoError]
      · cases hr : env.actualizarRes nombre
        · rw [verificar_actualizar_presente env a nombre g _ rfl rfl h hr]
          simp [infoInstalada]
        · rw [verificar_actualizar_presente_falla env a nombre g _ _ rfl rfl h hr]
          simp [infoError]
  · cases h : esta_instalada env nombre
    · rw [verificar_solo_ver_ausente env a nombre g _ rfl h]
      simp [infoNoInstalada]
    · rw [verificar_solo_ver_presente env a nombre g _ rfl h]
      simp [infoInstalada]

/-- C2: in install-and-upgrade mode, a present package (with a successful
upgrade subprocess) gets an upgrade call and estado actualizada; an
absent package (with a successful install subprocess) gets an install
call and estado instalada, never actualizada. -/
theorem instalar_y_actualizar_estados (env : Entorno) (a : Archivo) (nombre : String)
    (g : Bool) :
    (esta_instalada env nombre = true → env.actualizarRes nombre = none →
      Efecto.pipUpgrade nombre ∈
        (verificar env a nombre (CONFIG_MODOS ModoOperacion.instalar_y_actualizar) g).2.2 ∧
      (verificar env a nombre (CONFIG_MODOS ModoOperacion.instalar_y_actualizar) g).1.2.estado
          = EstadoLibreria.actualizada) ∧
    (esta_instalada env nombre = false → env.instalarRes nombre = none →
      Efecto.pipInstall nombre ∈
        (verificar env a nombre (CONFIG_MODOS ModoOperacion.instalar_y_actualizar) g).2.2 ∧
      (verificar env a nombre (CONFIG_MODOS ModoOperacion.instalar_y_actualizar) g).1.2.estado
          = EstadoLibreria.instalada ∧
      (verificar env a nombre (CONFIG_MODOS ModoOperacion.instalar_y_actualizar) g).1.2.estado
          ≠ EstadoLibreria.actualizada) := by
  refine ⟨fun h hok => ?_, fun h hok => ?_⟩
  · rw [verificar_actualizar_presente env a nombre g _ rfl rfl h hok]
    exact ⟨by simp, rfl⟩
  · rw [verificar_instalando_ausente env a nombre g _ rfl h hok]
    exact ⟨by simp, rfl, by simp [infoInstalada]⟩

/-- Witness for instalar_y_actualizar_estados at concrete environments. -/
theorem instalar_y_actualizar_estados_witness :
    (Efecto.pipUpgrade "requests" ∈
      (verificar entornoInstalado Archivo.ausente "requests"
        (CONFIG_MODOS ModoOperacion.instalar_y_actualizar) true).2.2 ∧
     (verificar entornoInstalado Archivo.ausente "requests"
        (CONFIG_MODOS ModoOperacion.instalar_y_actualizar) true).1.2.estado
        = EstadoLibreria.actualizada) ∧
    (Efecto.pipInstall "requests" ∈
      (verificar entornoVacio Archivo.ausente "requests"
        (CONFIG_MODOS ModoOperacion.instalar_y_actualizar) true).2.2 ∧
     (verificar entornoVacio Archivo.ausente "requests"
        (CONFIG_MODOS ModoOperacion.instalar_y_actualizar) true).1.2.estado
        = EstadoLibreria.instalada) := by
  constructor
  · exact (instalar_y_actualizar_estados entornoInstalado Archivo.ausente "requests" true).1
      (by decide) (by decide)
  · have h := (instalar_y_actualizar_estados entornoVacio Archivo.ausente "requests" true).2
      (by decide) (by decide)
    exact ⟨h.1, h.2.1⟩

/-- C3: in install mode, an absent package (with a successful install) gets
an install call and estado instalada; a present package triggers neither
an install nor an upgrade subprocess, and its record still has estado
instalada. -/
theorem instalar_sin_actualizar (env : Entorno) (a : Archivo) (nombre : String)
    (g : Bool) :
    (esta_instalada env nombre = false → env.instalarRes nombre = none →
      Efecto.pipInstall nombre ∈
        (verificar env a nombre (CONFIG_MODOS ModoOperacion.instalar) g).2.2 ∧
      (verificar env a nombre (CONFIG_MODOS ModoOperacion.instalar) g).1.2.estado
          = EstadoLibreria.instalada) ∧
    (esta_instalada env nombre = true →
      (verificar env a nombre (CONFIG_MODOS ModoOperacion.instalar) g).1.2.estado
          = EstadoLibreria.instalada ∧
      ((verificar env a nombre (CONFIG_MODOS ModoOperacion.instalar) g).2.2.all
          fun e => !(esEfectoInstalador e)) = true) := by
  refine ⟨fun h hok => ?_, fun h => ?_⟩
  · rw [verificar_instalando_ausente env a nombre g _ rfl h hok]
    exact ⟨by simp, rfl⟩
  · rw [verificar_instalar_presente env a nombre g _ rfl rfl h]
    refine ⟨rfl, ?_⟩
    cases g <;> simp [esEfectoInstalador]

/-- Witness for instalar_sin_actualizar at concrete environments. -/
theorem instalar_sin_actualizar_witness :
    (Efecto.pipInstall "requests" ∈
      (verificar entornoVacio Archivo.ausente "requests"
        (CONFIG_MODOS ModoOperacion.instalar) true).2.2 ∧
     (verificar entornoVacio Archivo.ausente "requests"
        (CONFIG_MODOS ModoOperacion.instalar) true).1.2.estado
        = EstadoLibreria.instalada) ∧
    ((verificar entornoInstalado Archivo.ausente "requests"
        (CONFIG_MODOS ModoOperacion.instalar) true).1.2.estado
        = EstadoLibreria.instalada ∧
     ((verificar entornoInstalado Archivo.ausente "requests"
        (CONFIG_MODOS ModoOperacion.instalar) true).2.2.all
        fun e => !(esEfectoInstalador e)) = true) := by
  constructor
  · exact (instalar_sin_actualizar entornoVacio Archivo.ausente "requests" true).1
      (by decide) (by decide)
  · exact (instalar_sin_actualizar entornoInstalado Archivo.ausente "requests" true).2
      (by decide)

/-- C5: when any exception occurs in the check/install/update sequence of
a non-view mode (the install subprocess raising on an absent package, or
the upgrade subprocess raising on a present package in upgrade mode), it
is converted exactly once into a record with estado error whose mensaje
is the textual message of the exception; the failing subprocess attempt
is in the trace; the record is persisted under the package key exactly
when persistence is on and the file is untouched otherwise; the caller
receives a false success flag; and the entry point returns the error
outcome for those inputs. -/
theorem manejo_error_unico (env : Entorno) (a : Archivo) (nombre : String) (g : Bool)
    (msj s o go : String) (modo : ConfigModo)
    (hsv : modo.solo_verificar = false)
    (hfalla :
      (esta_instalada env nombre = false ∧ env.instalarRes nombre = some msj) ∨
      (esta_instalada env nombre = true ∧ modo.actualizar = true ∧
        env.actualizarRes nombre = some msj))
    (hs : validar_nombre_libreria s = Except.ok nombre)
    (ho : obtener_modo o = Except.ok modo)
    (hgo : parsear_bool go = Except.ok g) :
    (verificar env a nombre modo g).1.1 = false ∧
    (verificar env a nombre modo g).1.2.estado = EstadoLibreria.error ∧
    (verificar env a nombre modo g).1.2.mensaje = some msj ∧
    (Efecto.pipInstall nombre ∈ (verificar env a nombre modo g).2.2 ∨
     Efecto.pipUpgrade nombre ∈ (verificar env a nombre modo g).2.2) ∧
    (g = true →
      buscar (leer (verificar env a nombre modo g).2.1) nombre
        = some ((verificar env a nombre modo g).1.2.to_dict)) ∧
    (g = false → (verificar env a nombre modo g).2.1 = a) ∧
    esErrorRes (GestorLibrerias.main env a s o go).1 = true := by
  rcases hfalla with ⟨hni, hfi⟩ | ⟨hpres, hact, hfu⟩
  · have hver := verificar_instalando_ausente_falla env a nombre g modo msj hsv hni hfi
    rw [hver]
    refine ⟨rfl, rfl, rfl, Or.inl (by simp), fun hg => ?_, fun hg => by simp [hg], ?_⟩
    · subst hg
      simpa [actualizar_libreria, leer, infoError] using
        buscar_dictSet_self (leer a) nombre (infoError env nombre msj).to_dict
    · simp [GestorLibrerias.main, hs, ho, hgo, hver, esErrorRes]
  · have hver := verificar_actualizar_presente_falla env a nombre g modo msj hsv hact hpres hfu
    rw [hver]
    refine ⟨rfl, rfl, rfl, Or.inr (by simp), fun hg => ?_, fun hg => by simp [hg], ?_⟩
    · subst hg
      simpa [actualizar_libreria, leer, infoError] using
        buscar_dictSet_self (leer a) nombre (infoError env nombre msj).to_dict
    · simp [GestorLibrerias.main, hs, ho, hgo, hver, esErrorRes]

/-- Witness for manejo_error_unico at two concrete failing environments:
a failing install on an absent package and a failing upgrade on a
present package. -/
theorem manejo_error_unico_witness :
    ((verificar entornoFallaInstalar Archivo.ausente "requests"
        (CONFIG_MODOS ModoOperacion.instalar) true).1.1 = false ∧
     (verificar entornoFallaInstalar Archivo.ausente "requests"
        (CONFIG_MODOS ModoOperacion.instalar) true).1.2.estado
        = EstadoLibreria.error ∧
     (verificar entornoFallaInstalar Archivo.ausente "requests"
        (CONFIG_MODOS ModoOperacion.instalar) true).1.2.mensaje
        = some "Command pip install returned non-zero exit status 1." ∧
     esErrorRes (GestorLibrerias.main entornoFallaInstalar Archivo.ausente
        "requests" "instalar" "si").1 = true) ∧
    ((verificar entornoFallaActualizar Archivo.ausente "requests"
        (CONFIG_MODOS ModoOperacion.instalar_y_actualizar) true).1.1 = false ∧
     (verificar entornoFallaActualizar Archivo.ausente "requests"
        (CONFIG_MODOS ModoOperacion.instalar_y_actualizar) true).1.2.estado
        = EstadoLibreria.error ∧
     (verificar entornoFallaActualizar Archivo.ausente "requests"
        (CONFIG_MODOS ModoOperacion.instalar_y_actualizar) true).1.2.mensaje
        = some "Command pip install upgrade returned non-zero exit status 1." ∧
     esErrorRes (GestorLibrerias.main entornoFallaActualizar Archivo.ausente
        "requests" "instalar_y_actualizar" "si").1 = true) := by
  constructor
  · have h := manejo_error_unico entornoFallaInstalar Archivo.ausente "requests" true
      "Command pip install returned non-zero exit status 1." "requests" "instalar" "si"
      (CONFIG_MODOS ModoOperacion.instalar) rfl
      (Or.inl (by exact ⟨by decide, by decide⟩)) rfl rfl rfl
    exact ⟨h.1, h.2.1, h.2.2.1, h.2.2.2.2.2.2⟩
  · have h := manejo_error_unico entornoFallaActualizar Archivo.ausente "requests" true
      "Command pip install upgrade returned non-zero exit status 1." "requests"
      "instalar_y_actualizar" "si"
      (CONFIG_MODOS ModoOperacion.instalar_y_actualizar) rfl
      (Or.inr (by exact ⟨by decide, rfl, by decide⟩)) rfl rfl rfl
    exact ⟨h.1, h.2.1, h.2.2.1, h.2.2.2.2.2.2⟩

/-- C6: a failed index lookup yields the sentinel desconocida from
obtener_ultima_version, and a view-only check of an installed package
still completes with success and estado instalada, its latest-version
field holding the sentinel. -/
theorem red_suave (env : Entorno) (a : Archivo) (nombre : String) (g : Bool)
    (hred : env.pypi nombre = none) :
    obtener_ultima_version env nombre = "desconocida" ∧
    (esta_instalada env nombre = true →
      (verificar env a nombre (CONFIG_MODOS ModoOperacion.solo_ver) g).1.1 = true ∧
      (verificar env a nombre (CONFIG_MODOS ModoOperacion.solo_ver) g).1.2.estado
          = EstadoLibreria.instalada ∧
      (verificar env a nombre (CONFIG_MODOS ModoOperacion.solo_ver) g).1.2.ultima_version
          = some "desconocida") := by
  have h1 : obtener_ultima_version env nombre = "desconocida" := by
    simp [obtener_ultima_version, hred]
  refine ⟨h1, fun hi => ?_⟩
  rw [verificar_solo_ver_presente env a nombre g _ rfl hi]
  exact ⟨rfl, rfl, by simp [infoInstalada, h1]⟩

/-- Witness for red_suave at a concrete environment without network. -/
theorem red_suave_witness :
    obtener_ultima_version entornoSinRed "requests" = "desconocida" ∧
    (verificar entornoSinRed Archivo.ausente "requests"
        (CONFIG_MODOS ModoOperacion.solo_ver) true).1.1 = true ∧
    (verificar entornoSinRed Archivo.ausente "requests"
        (CONFIG_MODOS ModoOperacion.solo_ver) true).1.2.estado
        = EstadoLibreria.instalada ∧
    (verificar entornoSinRed Archivo.ausente "requests"
        (CONFIG_MODOS ModoOperacion.solo_ver) true).1.2.ultima_version
        = some "desconocida" := by
  have h := red_suave entornoSinRed Archivo.ausente "requests" true (by decide)
  have h2 := h.2 (by decide)
  exact ⟨h.1, h2.1, h2.2.1, h2.2.2⟩

/-- C7: the persist-flag parser accepts exactly the strings whose stripped,
lower-cased form is si (true) or no (false) and raises on every other
string; and when any of the three validations fails the entry point
returns the error outcome with the file untouched and an empty effect
trace (no file write, no subprocess, no network call). -/
theorem parseo_bandera (v : String) (env : Entorno) (a : Archivo) (s o go : String) :
    (parsear_bool v = Except.ok true ↔ minusculas (recortar v) = "si") ∧
    (parsear_bool v = Except.ok false ↔ minusculas (recortar v) = "no") ∧
    (minusculas (recortar v) ≠ "si" → minusculas (recortar v) ≠ "no" →
      parsear_bool v
        = Except.error ("Valor invalido: " ++ v ++ ". Debe ser exactamente si o no.")) ∧
    ((∃ e, parsear_bool go = Except.error e) →
      esErrorRes (GestorLibrerias.main env a s o go).1 = true ∧
      (GestorLibrerias.main env a s o go).2.1 = a ∧
      (GestorLibrerias.main env a s o go).2.2 = []) ∧
    ((∃ e, validar_nombre_libreria s = Except.error e) →
      esErrorRes (GestorLibrerias.main env a s o go).1 = true ∧
      (GestorLibrerias.main env a s o go).2.1 = a ∧
      (GestorLibrerias.main env a s o go).2.2 = []) ∧
    ((∃ e, obtener_modo o = Except.error e) →
      esErrorRes (GestorLibrerias.main env a s o go).1 = true ∧
      (GestorLibrerias.main env a s o go).2.1 = a ∧
      (GestorLibrerias.main env a s o go).2.2 = []) := by
  refine ⟨?_, ?_, ?_, ?_, ?_, ?_⟩
  · by_cases h1 : minusculas (recortar v) = "si"
    · simp [parsear_bool, h1]
    · by_cases h2 : minusculas (recortar v) = "no" <;> simp [parsear_bool, h1, h2]
  · by_cases h1 : minusculas (recortar v) = "si"
    · simp [parsear_bool, h1]
    · by_cases h2 : minusculas (recortar v) = "no" <;> simp [parsear_bool, h1, h2]
  · intro hn1 hn2
    simp [parsear_bool, hn1, hn2]
  · rintro ⟨e, he⟩
    cases hval : validar_nombre_libreria s with
    | error e2 => simp [GestorLibrerias.main, hval, esErrorRes]
    | ok nom => simp [GestorLibrerias.main, hval, he, esErrorRes]
  · rintro ⟨e, he⟩
    simp [GestorLibrerias.main, he, esErrorRes]
  · rintro ⟨e, he⟩
    cases hval : validar_nombre_libreria s with
    | error e2 => simp [GestorLibrerias.main, hval, esErrorRes]
    | ok nom =>
      cases hgo : parsear_bool go with
      | error e3 => simp [GestorLibrerias.main, hval, hgo, esErrorRes]
      | ok b => simp [GestorLibrerias.main, hval, hgo, he, esErrorRes]

/-- Witness for parseo_bandera at concrete flag strings. -/
theorem parseo_bandera_witness :
    parsear_bool " SI " = Except.ok true ∧
    parsear_bool "No" = Except.ok false ∧
    parsear_bool "yes"
      = Except.error ("Valor invalido: " ++ "yes" ++ ". Debe ser exactamente si o no.") ∧
    esErrorRes (GestorLibrerias.main entornoVacio Archivo.ausente
        "requests" "solo_ver" "yes").1 = true ∧
    (GestorLibrerias.main entornoVacio Archivo.ausente
        "requests" "solo_ver" "yes").2.1 = Archivo.ausente ∧
    (GestorLibrerias.main entornoVacio Archivo.ausente
        "requests" "solo_ver" "yes").2.2 = [] := by
  have h1 := (parseo_bandera " SI " entornoVacio Archivo.ausente
    "requests" "solo_ver" "yes").1
  have h2 := (parseo_bandera "No" entornoVacio Archivo.ausente
    "requests" "solo_ver" "yes").2.1
  have hthm := parseo_bandera "yes" entornoVacio Archivo.ausente
    "requests" "solo_ver" "yes"
  have h3 := hthm.2.2.1 (by decide) (by decide)
  have h4 := hthm.2.2.2.1 ⟨_, h3⟩
  exact ⟨h1.mpr (by decide), h2.mpr (by decide), h3, h4.1, h4.2.1, h4.2.2⟩

/-- C8: in the inventory export object the count equals the length of the
stored list, and the list is sorted (pairwise non-decreasing) by
lower-cased package name. -/
theorem inventario_consistente (env : Entorno) :
    (exportar_a_json env).total_librerias = (exportar_a_json env).librerias.length ∧
    List.Pairwise (fun x y : String × String => minusculas x.1 ≤ minusculas y.1)
      (exportar_a_json env).librerias := by
  refine ⟨rfl, ?_⟩
  have htrans : ∀ a b c : String × String,
      (fun x y : String × String => decide (minusculas x.1 ≤ minusculas y.1)) a b = true →
      (fun x y : String × String => decide (minusculas x.1 ≤ minusculas y.1)) b c = true →
      (fun x y : String × String => decide (minusculas x.1 ≤ minusculas y.1)) a c = true := by
    intro a b c hab hbc
    simp only [decide_eq_true_eq] at hab hbc ⊢
    exact le_trans hab hbc
  have htotal : ∀ a b : String × String,
      ((fun x y : String × String => decide (minusculas x.1 ≤ minusculas y.1)) a b ||
       (fun x y : String × String => decide (minusculas x.1 ≤ minusculas y.1)) b a) = true := by
    intro a b
    simp only [Bool.or_eq_true, decide_eq_true_eq]
    exact le_total _ _
  have h := List.sorted_mergeSort htrans htotal env.distribuciones
  refine List.Pairwise.imp ?_ h
  intro x y hxy
  simpa using hxy

/-- C10: esta_instalada is false exactly when both the literal name and
its hyphen-to-underscore normalization miss the metadata; hence in an
environment whose only distribution is yt_dlp, the two distinct names
yt-dlp and yt_dlp are both reported installed. -/
theorem instalada_normaliza_guiones :
    (∀ env nombre, esta_instalada env nombre = false ↔
      env.metadata nombre = none ∧ env.metadata (reemplazarGuiones nombre) = none) ∧
    (∀ nombre, entornoYtDlp.metadata nombre = none ∨ nombre = "yt_dlp") ∧
    entornoYtDlp.metadata "yt-dlp" = none ∧
    esta_instalada entornoYtDlp "yt-dlp" = true ∧
    esta_instalada entornoYtDlp "yt_dlp" = true ∧
    "yt-dlp" ≠ "yt_dlp" := by
  refine ⟨?_, ?_, by decide, by decide, by decide, by decide⟩
  · intro env nombre
    cases h1 : env.metadata nombre <;>
      cases h2 : env.metadata (reemplazarGuiones nombre) <;>
      simp [esta_instalada, h1, h2]
  · intro nombre
    by_cases h : nombre = "yt_dlp"
    · exact Or.inr h
    · exact Or.inl (by simp [entornoYtDlp, h])
